import Mathlib

/-!
Shallow embedding of `traefik-healthcheck` (the richer variant of
`traefik-healthcheck.go`, with TTL rotation, entrypoints and per-host
minimum service counts), for verifying the natural-language spec.

Network effects are modelled by an oracle `World` describing what every
outbound call would return, and each probe is embedded as a function
returning its boolean verdict together with the list of outbound calls it
performs (mirroring Go's early `return false` statements, which make the
loops short-circuit).  Go `int` is modelled as `Int`; a Go function that
panics is modelled as returning `none`.
-/

/- Configuration settings (source struct `TraefikHost`). -/
structure TraefikHost where
  Host : String
  MinServices : Int
deriving DecidableEq

/- Configuration settings (source struct `Configuration`). -/
structure Configuration where
  ListenAddr : String
  PollInterval : Int
  TraefikHosts : List TraefikHost
  ConsulHost : String
  TraefikEntrypoints : List String
  HealthyTTLSec : Int
  HealthyTTLOffset : Int
deriving DecidableEq

/- The `consul_catalog` object of the providers JSON response.  The Go side
decodes `backends` / `frontends` into `map[string]interface{}`; only
`len(...)` of those maps is ever used, so the maps are modelled by their key
lists (a decoded Go map has distinct keys, which `mapLen` accounts for). -/
structure ConsulCatalogSection where
  Backends : List String
  Frontends : List String
deriving DecidableEq

/- Source struct `TraefikProviders`. -/
structure TraefikProviders where
  ConsulCatalog : ConsulCatalogSection
deriving DecidableEq

/- Source struct `TraefikHealth`.  `uptime_sec` is a float64 in Go but is
only ever consumed as `int(health.UptimeSec)`; it is modelled as that
truncated integer. -/
structure TraefikHealth where
  Uptime : String
  UptimeSec : Int
  RequestCount : Int
deriving DecidableEq

/- The zero value of `TraefikHealth`, which `health` keeps when
`decoder.Decode` fails (the error is ignored by the source). -/
def zeroTraefikHealth : TraefikHealth :=
  { Uptime := "", UptimeSec := 0, RequestCount := 0 }

/- `len` of a decoded Go `map[string]interface{}`: number of distinct keys. -/
def mapLen (keys : List String) : Int :=
  (keys.eraseDups.length : Int)

/- One outbound call the daemon can make during a poll. -/
inductive Call where
  | consulLeader : String → Call
  | getProviders : String → Call
  | getHealth : String → Call
  | getEntry : String → Call
deriving DecidableEq

/- Oracle for the outside world, indexed by address/host/url:
  * `newClientErr a`  — whether `api.NewClient` fails for consul address `a`;
  * `leader a`        — `none` if `status.Leader()` errors, otherwise the
                        leader string it returns;
  * `providersResp h` — `none` on network error for `GET http://h/api/providers`,
                        otherwise `(statusCode, decoded body)` where the body
                        is `none` when JSON decoding fails;
  * `healthResp h`    — same for `GET http://h/health`;
  * `entryResp u`     — `none` on network error for `GET u`, otherwise the
                        status code (only the status is inspected). -/
structure World where
  newClientErr : String → Bool
  leader : String → Option String
  providersResp : String → Option (Int × Option TraefikProviders)
  healthResp : String → Option (Int × Option TraefikHealth)
  entryResp : String → Option Int

/- Go `rand.Intn(n)`: panics (`none`) when `n ≤ 0`, otherwise a
pseudo-random value in `[0, n)`; the draw is supplied as `rnd`. -/
def randIntn (rnd : Nat) (n : Int) : Option Int :=
  if n ≤ 0 then none else some ((rnd : Int) % n)

/- Source `computeTtl`: `rand.Intn(offset - 0) + ttl`. -/
def computeTtl (rnd : Nat) (ttl offset : Int) : Option Int :=
  (randIntn rnd (offset - 0)).map (fun v => v + ttl)

/- The TTL-resolution step at the end of `newConfig`: `computeTtl` is
invoked exactly when `config.HealthyTTLSec > 0`. -/
def resolveTtl (rnd : Nat) (config : Configuration) : Option Configuration :=
  if config.HealthyTTLSec > 0 then
    (computeTtl rnd config.HealthyTTLSec config.HealthyTTLOffset).map
      (fun t => { config with HealthyTTLSec := t })
  else
    some config

/- Source `consulIsHealthy`, with its call trace: client-construction
error → false before any query; leader-query error → false; otherwise true
iff the leader string is non-empty. -/
def consulIsHealthyT (W : World) (consulAddress : String) : Bool × List Call :=
  if W.newClientErr consulAddress then
    (false, [])
  else
    match W.leader consulAddress with
    | none => (false, [Call.consulLeader consulAddress])
    | some leader =>
        (if leader ≠ "" then true else false, [Call.consulLeader consulAddress])

def consulIsHealthy (W : World) (consulAddress : String) : Bool :=
  (consulIsHealthyT W consulAddress).1

/- Whether one traefik host passes the providers check of
`traefikIsHealthy` (`GET /api/providers`): network error, non-200 status,
decode error, or either map length below `MinServices` all fail. -/
def providersHostOk (W : World) (host : TraefikHost) : Bool :=
  match W.providersResp host.Host with
  | none => false
  | some (status, body) =>
      if status ≠ 200 then false
      else
        match body with
        | none => false
        | some providers =>
            if mapLen providers.ConsulCatalog.Backends < host.MinServices then false
            else if mapLen providers.ConsulCatalog.Frontends < host.MinServices then false
            else true

/- The first loop of `traefikIsHealthy`, with its call trace: a `GET` is
issued for each host in order, returning false at the first failing host. -/
def checkProviders (W : World) : List TraefikHost → Bool × List Call
  | [] => (true, [])
  | host :: rest =>
      if providersHostOk W host then
        let r := checkProviders W rest
        (r.1, Call.getProviders host.Host :: r.2)
      else
        (false, [Call.getProviders host.Host])

/- Whether one traefik host passes the uptime check (`GET /health`):
network error or non-200 fail; a decode error is IGNORED by the source,
leaving `health` at its zero value; then strict `int(UptimeSec) > ttl`
fails. -/
def ttlHostOk (W : World) (ttl : Int) (host : TraefikHost) : Bool :=
  match W.healthResp host.Host with
  | none => false
  | some (status, body) =>
      if status ≠ 200 then false
      else
        let health := body.getD zeroTraefikHealth
        if health.UptimeSec > ttl then false else true

/- The second loop of `traefikIsHealthy` (run only when `ttl != 0`). -/
def checkTtl (W : World) (ttl : Int) : List TraefikHost → Bool × List Call
  | [] => (true, [])
  | host :: rest =>
      if ttlHostOk W ttl host then
        let r := checkTtl W ttl rest
        (r.1, Call.getHealth host.Host :: r.2)
      else
        (false, [Call.getHealth host.Host])

/- Whether one entrypoint URL passes its probe: network error fails,
status ≥ 500 fails, anything below 500 passes. -/
def entryOk (W : World) (url : String) : Bool :=
  match W.entryResp url with
  | none => false
  | some status => if status ≥ 500 then false else true

/- The third loop of `traefikIsHealthy`. -/
def checkEntrypoints (W : World) : List String → Bool × List Call
  | [] => (true, [])
  | url :: rest =>
      if entryOk W url then
        let r := checkEntrypoints W rest
        (r.1, Call.getEntry url :: r.2)
      else
        (false, [Call.getEntry url])

/- Source `traefikIsHealthy`: providers loop, then (only if `ttl != 0`)
the uptime loop, then the entrypoints loop, each returning false early. -/
def traefikIsHealthyT (W : World) (traefikHosts : List TraefikHost)
    (traefikEntrypoints : List String) (ttl : Int) : Bool × List Call :=
  let p := checkProviders W traefikHosts
  if p.1 then
    let t := if ttl ≠ 0 then checkTtl W ttl traefikHosts else (true, [])
    if t.1 then
      let e := checkEntrypoints W traefikEntrypoints
      (e.1, p.2 ++ (t.2 ++ e.2))
    else
      (false, p.2 ++ t.2)
  else
    (false, p.2)

def traefikIsHealthy (W : World) (traefikHosts : List TraefikHost)
    (traefikEntrypoints : List String) (ttl : Int) : Bool :=
  (traefikIsHealthyT W traefikHosts traefikEntrypoints ttl).1

/- Source `isLBHealthy`: Go `&&`, so the traefik probe runs only when the
consul probe succeeded. -/
def isLBHealthyT (W : World) (config : Configuration) : Bool × List Call :=
  let c := consulIsHealthyT W config.ConsulHost
  if c.1 then
    let t := traefikIsHealthyT W config.TraefikHosts config.TraefikEntrypoints
      config.HealthyTTLSec
    (t.1, c.2 ++ t.2)
  else
    (false, c.2)

def isLBHealthy (W : World) (config : Configuration) : Bool :=
  (isLBHealthyT W config).1

/- The HTTP handler registered in `main`: `WriteHeader(500)` when the
global `healthy` is false, `WriteHeader(200)` otherwise; no body is
written either way. -/
def rootHandler (healthy : Bool) : Int × String :=
  if !healthy then (500, "") else (200, "")

/- The zero value of the global `var healthy bool`, in effect until the
first assignment performed by `pollHealth`. -/
def healthyInit : Bool := false

/- One iteration of `pollHealth`: the new value of the global `healthy`. -/
def pollStep (W : World) (config : Configuration) : Bool :=
  isLBHealthy W config

/-! ### Loop characterisations -/

theorem checkProviders_fst (W : World) (hs : List TraefikHost) :
    (checkProviders W hs).1 = hs.all (providersHostOk W) := by
  induction hs with
  | nil => rfl
  | cons h rest ih =>
      cases hok : providersHostOk W h <;>
        simp [checkProviders, hok, ih]

theorem checkProviders_snd (W : World) (hs : List TraefikHost) :
    (checkProviders W hs).2 =
      (hs.take ((hs.takeWhile (providersHostOk W)).length + 1)).map
        (fun h => Call.getProviders h.Host) := by
  induction hs with
  | nil => rfl
  | cons h rest ih =>
      cases hok : providersHostOk W h <;>
        simp [checkProviders, hok, ih, List.takeWhile_cons]

theorem checkProviders_snd_mem (W : World) (hs : List TraefikHost)
    (c : Call) (hc : c ∈ (checkProviders W hs).2) :
    ∃ s, c = Call.getProviders s := by
  induction hs with
  | nil => simp [checkProviders] at hc
  | cons h rest ih =>
      cases hok : providersHostOk W h <;>
        simp [checkProviders, hok] at hc
      · exact ⟨h.Host, hc⟩
      · rcases hc with hc | hc
        · exact ⟨h.Host, hc⟩
        · exact ih hc

theorem checkTtl_fst (W : World) (ttl : Int) (hs : List TraefikHost) :
    (checkTtl W ttl hs).1 = hs.all (ttlHostOk W ttl) := by
  induction hs with
  | nil => rfl
  | cons h rest ih =>
      cases hok : ttlHostOk W ttl h <;>
        simp [checkTtl, hok, ih]

theorem checkEntrypoints_fst (W : World) (eps : List String) :
    (checkEntrypoints W eps).1 = eps.all (entryOk W) := by
  induction eps with
  | nil => rfl
  | cons u rest ih =>
      cases hok : entryOk W u <;>
        simp [checkEntrypoints, hok, ih]

theorem checkEntrypoints_snd_mem (W : World) (eps : List String)
    (c : Call) (hc : c ∈ (checkEntrypoints W eps).2) :
    ∃ s, c = Call.getEntry s := by
  induction eps with
  | nil => simp [checkEntrypoints] at hc
  | cons u rest ih =>
      cases hok : entryOk W u <;>
        simp [checkEntrypoints, hok] at hc
      · exact ⟨u, hc⟩
      · rcases hc with hc | hc
        · exact ⟨u, hc⟩
        · exact ih hc

theorem traefikIsHealthyT_fst (W : World) (hs : List TraefikHost)
    (eps : List String) (ttl : Int) :
    (traefikIsHealthyT W hs eps ttl).1 =
      ((checkProviders W hs).1 &&
       ((if ttl ≠ 0 then (checkTtl W ttl hs).1 else true) &&
        (checkEntrypoints W eps).1)) := by
  unfold traefikIsHealthyT
  by_cases h0 : ttl ≠ 0 <;>
    cases hp : (checkProviders W hs).1 <;>
      simp [h0, hp] <;>
        cases ht : (checkTtl W ttl hs).1 <;>
          simp [ht]

theorem traefikIsHealthy_eq (W : World) (hs : List TraefikHost)
    (eps : List String) (ttl : Int) :
    traefikIsHealthy W hs eps ttl =
      (hs.all (providersHostOk W) &&
       ((if ttl ≠ 0 then hs.all (ttlHostOk W ttl) else true) &&
        eps.all (entryOk W))) := by
  rw [traefikIsHealthy, traefikIsHealthyT_fst, checkProviders_fst,
    checkTtl_fst, checkEntrypoints_fst]

theorem isLBHealthy_eq (W : World) (config : Configuration) :
    isLBHealthy W config =
      (consulIsHealthy W config.ConsulHost &&
       traefikIsHealthy W config.TraefikHosts config.TraefikEntrypoints
         config.HealthyTTLSec) := by
  unfold isLBHealthy isLBHealthyT consulIsHealthy traefikIsHealthy
  cases hc : (consulIsHealthyT W config.ConsulHost).1 <;> simp [hc]

theorem consulIsHealthyT_snd_mem (W : World) (a : String) (c : Call)
    (hc : c ∈ (consulIsHealthyT W a).2) : ∃ s, c = Call.consulLeader s := by
  unfold consulIsHealthyT at hc
  cases hce : W.newClientErr a <;> simp [hce] at hc
  cases hl : W.leader a <;> simp [hl] at hc <;> exact ⟨a, hc⟩

/-! ### Example worlds and configurations used by the witnesses -/

/- A world in which everything is healthy: a consul leader exists, every
providers listing has one backend and one frontend, uptime is 50 seconds,
and every entrypoint answers 404. -/
def exWorldUp : World :=
  { newClientErr := fun _ => false
    leader := fun _ => some "node1"
    providersResp := fun _ =>
      some (200, some { ConsulCatalog := { Backends := ["b1"], Frontends := ["f1"] } })
    healthResp := fun _ =>
      some (200, some { Uptime := "50s", UptimeSec := 50, RequestCount := 3 })
    entryResp := fun _ => some 404 }

/- A world in which consul answers the leader query with the empty string
and every other call fails on the network. -/
def exWorldDown : World :=
  { newClientErr := fun _ => false
    leader := fun _ => some ""
    providersResp := fun _ => none
    healthResp := fun _ => none
    entryResp := fun _ => none }

/- A configuration with no traefik hosts, no entrypoints and TTL 0. -/
def exConfigEmpty : Configuration :=
  { ListenAddr := "0.0.0.0:10700"
    PollInterval := 10
    TraefikHosts := []
    ConsulHost := "127.0.0.1:8500"
    TraefikEntrypoints := []
    HealthyTTLSec := 0
    HealthyTTLOffset := 43200 }

/-! ### Claims -/

/-- Claim C6: `consulIsHealthy` returns true iff the leader query succeeds
with a non-empty leader identity; a client-construction error or a
leader-query error makes it return false (it is a total Bool-valued
function, so it fails closed rather than propagating an error). -/
theorem consul_health_fails_closed (W : World) (a : String) :
    (consulIsHealthy W a = true ↔
      (W.newClientErr a = false ∧ ∃ l, W.leader a = some l ∧ l ≠ "")) ∧
    (W.newClientErr a = true → consulIsHealthy W a = false) ∧
    (W.leader a = none → consulIsHealthy W a = false) := by
  unfold consulIsHealthy consulIsHealthyT
  cases hce : W.newClientErr a <;> cases hl : W.leader a <;> simp [hce, hl]

/-- Closed witness for C6: in `exWorldUp` the leader is `"node1"`, so the
probe reports healthy. -/
theorem consul_health_fails_closed_witness :
    consulIsHealthy exWorldUp "127.0.0.1:8500" = true :=
  ((consul_health_fails_closed exWorldUp "127.0.0.1:8500").1).mpr
    ⟨rfl, "node1", rfl, by decide⟩

/-- Claim C7: the HTTP handler responds 500 with an empty body when the
shared `healthy` flag is false and 200 with an empty body when it is true;
the flag's zero value is false, so requests served before the first poll
get 500. -/
theorem responder_status_from_state :
    rootHandler true = (200, "") ∧ rootHandler false = (500, "") ∧
    healthyInit = false ∧ rootHandler healthyInit = (500, "") :=
  ⟨rfl, rfl, rfl, rfl⟩

/-- Claim C2 (code bug): at base TTL 100 and jitter window 0 the source
calls Go `rand.Intn(0)`, which panics (modelled as `none`), for every
possible random draw — it does not return 100. -/
theorem computeTtl_offset_zero_panics (rnd : Nat) :
    computeTtl rnd 100 0 = none := by
  unfold computeTtl randIntn
  simp

/- For a positive window the generator does land in `[t, t + w)`: the w = 0
edge case is the only point where the source deviates from the contract. -/
theorem computeTtl_range (rnd : Nat) (t w : Int) (hw : 0 < w) :
    ∃ v, computeTtl rnd t w = some v ∧ t ≤ v ∧ v < t + w := by
  unfold computeTtl randIntn
  rw [sub_zero, if_neg (by omega)]
  refine ⟨(rnd : Int) % w + t, rfl, ?_, ?_⟩
  · have := Int.emod_nonneg (rnd : Int) (by omega : w ≠ 0)
    omega
  · have := Int.emod_lt_of_pos (rnd : Int) hw
    omega

/- `computeTtl` is reached only when the configured base TTL is positive. -/
theorem resolveTtl_skips_nonpositive (rnd : Nat) (config : Configuration)
    (h : ¬config.HealthyTTLSec > 0) : resolveTtl rnd config = some config := by
  unfold resolveTtl
  rw [if_neg h]

/-- Claim C1: `isLBHealthy` equals the AND of the consul probe and the
traefik probe, and when the consul probe is false the verdict is false and
no traefik call appears in the trace — only leader queries do. -/
theorem isLBHealthy_and_shortcircuit (W : World) (config : Configuration) :
    isLBHealthy W config =
      (consulIsHealthy W config.ConsulHost &&
       traefikIsHealthy W config.TraefikHosts config.TraefikEntrypoints
         config.HealthyTTLSec) ∧
    (consulIsHealthy W config.ConsulHost = false →
      isLBHealthy W config = false ∧
      (isLBHealthyT W config).2 = (consulIsHealthyT W config.ConsulHost).2 ∧
      ∀ c ∈ (isLBHealthyT W config).2, ∃ s, c = Call.consulLeader s) := by
  refine ⟨isLBHealthy_eq W config, fun hc => ?_⟩
  have h1 : (consulIsHealthyT W config.ConsulHost).1 = false := hc
  refine ⟨?_, ?_, ?_⟩
  · rw [isLBHealthy_eq W config, hc, Bool.false_and]
  · simp [isLBHealthyT, h1]
  · intro c hcm
    simp only [isLBHealthyT, h1] at hcm
    simp at hcm
    exact consulIsHealthyT_snd_mem W config.ConsulHost c hcm

/-- Closed witness for C1: in `exWorldDown` the leader is empty, so the
aggregate verdict is false and the trace is just consul's trace. -/
theorem isLBHealthy_and_shortcircuit_witness :
    isLBHealthy exWorldDown exConfigEmpty = false ∧
    (isLBHealthyT exWorldDown exConfigEmpty).2 =
      (consulIsHealthyT exWorldDown "127.0.0.1:8500").2 := by
  have h := (isLBHealthy_and_shortcircuit exWorldDown exConfigEmpty).2 (by decide)
  exact ⟨h.1, h.2.1⟩

/- The exact failure condition of the providers check for one host, spelled
out: network error, non-200 status, decode failure, or either distinct-name
count below the host's minimum. -/
def providersHostFails (W : World) (host : TraefikHost) : Prop :=
  W.providersResp host.Host = none ∨
  ∃ st body, W.providersResp host.Host = some (st, body) ∧
    (st ≠ 200 ∨ body = none ∨
     ∃ p, body = some p ∧
       (mapLen p.ConsulCatalog.Backends < host.MinServices ∨
        mapLen p.ConsulCatalog.Frontends < host.MinServices))

theorem providersHostOk_eq_false_iff (W : World) (host : TraefikHost) :
    providersHostOk W host = false ↔ providersHostFails W host := by
  unfold providersHostOk providersHostFails
  cases hr : W.providersResp host.Host with
  | none => simp
  | some pr =>
      obtain ⟨st, body⟩ := pr
      by_cases hst : st = 200
      · subst hst
        cases body with
        | none =>
            simp
            exact ⟨200, none, ⟨rfl, rfl⟩, Or.inr (Or.inl rfl)⟩
        | some p =>
            by_cases hb : mapLen p.ConsulCatalog.Backends < host.MinServices
            · simp [hb]
              exact ⟨200, some p, ⟨rfl, rfl⟩, Or.inr (Or.inr ⟨p, rfl, Or.inl hb⟩)⟩
            · by_cases hf : mapLen p.ConsulCatalog.Frontends < host.MinServices
              · simp [hb, hf]
                exact ⟨200, some p, ⟨rfl, rfl⟩, Or.inr (Or.inr ⟨p, rfl, Or.inr hf⟩)⟩
              · simp [hb, hf]
                exact ⟨not_lt.mp hb, not_lt.mp hf⟩
      · simp [hst]
        exact ⟨st, body, ⟨rfl, rfl⟩, Or.inl hst⟩

/-- Claim C4: if any host's providers listing fails (network error, bad
status, malformed payload, or a distinct backend/frontend name count below
its minimum), the traefik probe is false whatever the other hosts do; and
the providers loop's trace stops at the first failing host: it is exactly
the hosts through the first failure, in order. -/
theorem providers_min_count_unhealthy (W : World) (hs : List TraefikHost)
    (eps : List String) (ttl : Int) :
    ((∃ h ∈ hs, providersHostFails W h) →
      traefikIsHealthy W hs eps ttl = false) ∧
    (checkProviders W hs).2 =
      (hs.take ((hs.takeWhile (providersHostOk W)).length + 1)).map
        (fun h => Call.getProviders h.Host) := by
  refine ⟨fun hex => ?_, checkProviders_snd W hs⟩
  obtain ⟨h, hm, hf⟩ := hex
  have hok : providersHostOk W h = false :=
    (providersHostOk_eq_false_iff W h).mpr hf
  have hall : hs.all (providersHostOk W) = false := by
    rw [List.all_eq_false]
    exact ⟨h, hm, by simp [hok]⟩
  rw [traefikIsHealthy_eq, hall, Bool.false_and]

/- A host demanding at least one backend and one frontend. -/
def exHostMin1 : TraefikHost := { Host := "10.0.0.1:8080", MinServices := 1 }

/- A host with the default minimum of 0. -/
def exHost0 : TraefikHost := { Host := "10.0.0.2:8080", MinServices := 0 }

/- A world whose providers listings are empty (0 backends, 0 frontends)
while everything else is healthy. -/
def exWorldNoBackends : World :=
  { newClientErr := fun _ => false
    leader := fun _ => some "node1"
    providersResp := fun _ =>
      some (200, some { ConsulCatalog := { Backends := [], Frontends := [] } })
    healthResp := fun _ =>
      some (200, some { Uptime := "0s", UptimeSec := 0, RequestCount := 0 })
    entryResp := fun _ => some 200 }

/-- Closed witness for C4: a host requiring 1 service against an empty
listing makes the traefik probe false. -/
theorem providers_min_count_unhealthy_witness :
    traefikIsHealthy exWorldNoBackends [exHostMin1] [] 0 = false :=
  (providers_min_count_unhealthy exWorldNoBackends [exHostMin1] [] 0).1
    ⟨exHostMin1, by simp,
      Or.inr ⟨200, some { ConsulCatalog := { Backends := [], Frontends := [] } },
        rfl, Or.inr (Or.inr ⟨_, rfl, Or.inl (by decide)⟩)⟩⟩

/-- Claim C3: with rotation enabled (`ttl > 0`) a host whose decoded uptime
strictly exceeds `ttl` makes the traefik probe false; a host whose uptime
equals `ttl` exactly passes the uptime check (strict `>`); and with
`ttl = 0` the probe's trace contains no `/health` fetch at all. -/
theorem ttl_rotation_strict_comparison (W : World) (hs : List TraefikHost)
    (eps : List String) (ttl : Int) :
    (ttl > 0 →
      (∃ h ∈ hs, ∃ hh, W.healthResp h.Host = some (200, some hh) ∧
        hh.UptimeSec > ttl) →
      traefikIsHealthy W hs eps ttl = false) ∧
    (∀ h hh, W.healthResp h.Host = some (200, some hh) →
      hh.UptimeSec = ttl → ttlHostOk W ttl h = true) ∧
    (ttl = 0 →
      ∀ c ∈ (traefikIsHealthyT W hs eps ttl).2, ∀ s, c ≠ Call.getHealth s) := by
  refine ⟨fun hpos hex => ?_, fun h hh hresp hequ => ?_, fun h0 c hcm s => ?_⟩
  · obtain ⟨h, hm, hh, hresp, hup⟩ := hex
    have hok : ttlHostOk W ttl h = false := by
      unfold ttlHostOk
      rw [hresp]
      simp [hup]
    have hall : hs.all (ttlHostOk W ttl) = false := by
      rw [List.all_eq_false]
      exact ⟨h, hm, by simp [hok]⟩
    have hne : ttl ≠ 0 := by omega
    rw [traefikIsHealthy_eq, if_pos hne, hall]
    simp
  · unfold ttlHostOk
    rw [hresp]
    simp [hequ]
  · subst h0
    simp only [traefikIsHealthyT] at hcm
    rw [if_neg (by decide : ¬(0 : Int) ≠ 0)] at hcm
    by_cases hp : (checkProviders W hs).1 = true
    · simp [hp] at hcm
      rcases hcm with hm | hm
      · obtain ⟨s', rfl⟩ := checkProviders_snd_mem W hs c hm
        simp
      · obtain ⟨s', rfl⟩ := checkEntrypoints_snd_mem W eps c hm
        simp
    · simp [hp] at hcm
      obtain ⟨s', rfl⟩ := checkProviders_snd_mem W hs c hcm
      simp

/- A world where every uptime report is 11 seconds and everything else is
healthy. -/
def exWorldOldUptime : World :=
  { newClientErr := fun _ => false
    leader := fun _ => some "node1"
    providersResp := fun _ =>
      some (200, some { ConsulCatalog := { Backends := ["b1"], Frontends := ["f1"] } })
    healthResp := fun _ =>
      some (200, some { Uptime := "11s", UptimeSec := 11, RequestCount := 0 })
    entryResp := fun _ => some 200 }

/-- Closed witness for C3: with `ttl = 10` and every uptime at 11 seconds
the traefik probe is false. -/
theorem ttl_rotation_strict_comparison_witness :
    traefikIsHealthy exWorldOldUptime [exHost0] [] 10 = false :=
  (ttl_rotation_strict_comparison exWorldOldUptime [exHost0] [] 10).1
    (by decide)
    ⟨exHost0, by simp,
      { Uptime := "11s", UptimeSec := 11, RequestCount := 0 }, rfl, by decide⟩

/-- Claim C5: an entrypoint probe that hits a network error or a status
≥ 500 (for instance 503) makes the traefik probe false; any status below
500 — 404 included — passes the entrypoint check. -/
theorem entrypoint_status_threshold (W : World) (hs : List TraefikHost)
    (eps : List String) (ttl : Int) :
    ((∃ u ∈ eps, W.entryResp u = none ∨
        ∃ s, W.entryResp u = some s ∧ s ≥ 500) →
      traefikIsHealthy W hs eps ttl = false) ∧
    (∀ u s, W.entryResp u = some s → s < 500 → entryOk W u = true) ∧
    (∀ u, W.entryResp u = some 404 → entryOk W u = true) ∧
    (∀ u, W.entryResp u = some 503 → entryOk W u = false) := by
  refine ⟨fun hex => ?_, fun u s hresp hlt => ?_, fun u hresp => ?_,
    fun u hresp => ?_⟩
  · obtain ⟨u, hm, hfail⟩ := hex
    have hok : entryOk W u = false := by
      unfold entryOk
      rcases hfail with hn | ⟨s, hs', hge⟩
      · rw [hn]
      · rw [hs']
        simp [hge]
    have hall : eps.all (entryOk W) = false := by
      rw [List.all_eq_false]
      exact ⟨u, hm, by simp [hok]⟩
    rw [traefikIsHealthy_eq, hall]
    simp
  · unfold entryOk
    rw [hresp]
    simp
    omega
  · unfold entryOk
    rw [hresp]
    decide
  · unfold entryOk
    rw [hresp]
    decide

/- A world whose single interesting behaviour is a 503 from every
entrypoint. -/
def exWorldEntry503 : World :=
  { newClientErr := fun _ => false
    leader := fun _ => some "node1"
    providersResp := fun _ =>
      some (200, some { ConsulCatalog := { Backends := ["b1"], Frontends := ["f1"] } })
    healthResp := fun _ =>
      some (200, some { Uptime := "0s", UptimeSec := 0, RequestCount := 0 })
    entryResp := fun _ => some 503 }

/-- Closed witness for C5: a 503 entrypoint makes the probe false, and a
404 entrypoint (as in `exWorldUp`) passes the entrypoint check. -/
theorem entrypoint_status_threshold_witness :
    traefikIsHealthy exWorldEntry503 [] ["http://lb.example/"] 0 = false ∧
    entryOk exWorldUp "http://lb.example/" = true := by
  constructor
  · exact (entrypoint_status_threshold exWorldEntry503 [] ["http://lb.example/"] 0).1
      ⟨"http://lb.example/", by simp, Or.inr ⟨503, rfl, by decide⟩⟩
  · exact (entrypoint_status_threshold exWorldUp [] [] 0).2.2.1 "http://lb.example/" rfl

/-- Claim C8: in the uptime loop a 200 response whose body fails to decode
leaves `health` at its zero value (`UptimeSec = 0`), so for any `ttl ≥ 0`
such a host passes the uptime check, and a whole fleet of such hosts makes
the loop succeed: a malformed uptime payload never by itself fails the
probe. -/
theorem uptime_decode_error_ignored (W : World) (ttl : Int)
    (hs : List TraefikHost) (hnn : ttl ≥ 0) :
    (∀ h, W.healthResp h.Host = some (200, none) → ttlHostOk W ttl h = true) ∧
    ((∀ h ∈ hs, W.healthResp h.Host = some (200, none)) →
      (checkTtl W ttl hs).1 = true) := by
  have hone : ∀ h : TraefikHost, W.healthResp h.Host = some (200, none) →
      ttlHostOk W ttl h = true := by
    intro h hresp
    unfold ttlHostOk
    rw [hresp]
    simp [zeroTraefikHealth]
    omega
  refine ⟨hone, fun hall => ?_⟩
  rw [checkTtl_fst, List.all_eq_true]
  intro h hm
  exact hone h (hall h hm)

/- A world whose `/health` bodies are all malformed (decode error), with a
200 status. -/
def exWorldBadDecode : World :=
  { newClientErr := fun _ => false
    leader := fun _ => some "node1"
    providersResp := fun _ =>
      some (200, some { ConsulCatalog := { Backends := ["b1"], Frontends := ["f1"] } })
    healthResp := fun _ => some (200, none)
    entryResp := fun _ => some 200 }

/-- Closed witness for C8: with `ttl = 5` and malformed uptime bodies the
uptime loop still succeeds. -/
theorem uptime_decode_error_ignored_witness :
    (checkTtl exWorldBadDecode 5 [exHost0]).1 = true :=
  (uptime_decode_error_ignored exWorldBadDecode 5 [exHost0] (by decide)).2
    (fun h hm => by
      simp at hm
      subst hm
      rfl)

/-- Claim C10: with no traefik hosts, no entrypoints and `ttl = 0` the
traefik probe is vacuously true and performs no outbound call, so a
healthy consul leader makes the aggregate verdict true. -/
theorem empty_config_vacuous_healthy (W : World) (config : Configuration)
    (hh : config.TraefikHosts = []) (he : config.TraefikEntrypoints = [])
    (ht : config.HealthyTTLSec = 0) :
    traefikIsHealthyT W config.TraefikHosts config.TraefikEntrypoints
      config.HealthyTTLSec = (true, []) ∧
    (consulIsHealthy W config.ConsulHost = true → isLBHealthy W config = true) := by
  constructor
  · rw [hh, he, ht]
    rfl
  · intro hc
    rw [isLBHealthy_eq W config, hc, traefikIsHealthy, hh, he, ht]
    rfl

/-- Closed witness for C10: `exConfigEmpty` against the healthy world is
healthy overall. -/
theorem empty_config_vacuous_healthy_witness :
    isLBHealthy exWorldUp exConfigEmpty = true :=
  (empty_config_vacuous_healthy exWorldUp exConfigEmpty rfl rfl rfl).2 (by decide)
